import Mathlib

/-!
Verification development for the incremental crawl-enrich-persist pipeline
(`src/backbone_crawler.py`).  The Python source is shallowly embedded:

* pure computations (regex-style parsing, queue construction, the merge of
  `_upsert_and_save`, the partition-cursor arithmetic) become Lean functions;
* external capabilities (the browser page, the generative-AI service, the
  injected `pd.concat` failure of the repository test suite) become explicit
  inputs describing the outcome of each external call;
* `datetime` values become `Nat` instants (seconds); a `NaT` produced by
  `pd.to_datetime(..., errors=coerce)` becomes `none`;
* the merge of `_upsert_and_save` is modelled twice: once over uniformly
  typed rows (`upsert`, used only as the opaque payload of the save step),
  and once over the frame as pandas actually types it after the CSV round
  trip (`upsert_m`, mixing int64 with str ids), which is the model the
  Store Merger claims are settled against.  The source sorts with the
  default `kind=quicksort`, whose order among equal `last_scraped` keys is
  not guaranteed; every theorem below is insensitive to that tie order.
-/

namespace Crawler

/-! ## Constants (`ADAPTED SETTINGS` block of the source) -/

def STALENESS_DAYS : Nat := 30

def MIN_REVIEWS_THRESHOLD : Nat := 5

def DEV_LIMIT : Nat := 1

/-- Seconds per day; timestamps are modelled in seconds, so
`timedelta(days=STALENESS_DAYS)` becomes `STALENESS_DAYS * SECONDS_PER_DAY`. -/
def SECONDS_PER_DAY : Nat := 86400

def staleness_cutoff : Nat := STALENESS_DAYS * SECONDS_PER_DAY

/-! ## Regex-style parsing helpers

`firstIntMatchAux` embeds `re.search(r'(\d+)', text)`: the first maximal run
of digits, if any.  `firstDecMatchAux` embeds `re.search(r'(\d+\.?\d*)', text)`:
the first digit run, optionally followed by a dot and a further digit run,
returned as the matched token. -/

/-- Python `str.strip()`: drop leading and trailing whitespace.  (Defined by
structural recursion over the character list so that it evaluates inside the
kernel.) -/
def isStripChar (c : Char) : Bool :=
  c = ' ' || c = '\t' || c = '\n' || c = '\r'

def stripChars (cs : List Char) : List Char :=
  ((cs.dropWhile isStripChar).reverse.dropWhile isStripChar).reverse

def pyStrip (s : String) : String :=
  String.mk (stripChars s.data)

def natOfDigits (ds : List Char) : Nat :=
  ds.foldl (fun n c => n * 10 + (c.toNat - 48)) 0

def firstIntMatchAux : List Char → Option Nat
  | [] => none
  | c :: rest =>
    if c.isDigit then some (natOfDigits (c :: rest.takeWhile Char.isDigit))
    else firstIntMatchAux rest

def firstIntMatch (s : String) : Option Nat :=
  firstIntMatchAux s.data

def firstDecMatchAux : List Char → Option (List Char)
  | [] => none
  | c :: rest =>
    if c.isDigit then
      let intPart := c :: rest.takeWhile Char.isDigit
      match rest.dropWhile Char.isDigit with
      | '.' :: rest2 => some (intPart ++ '.' :: rest2.takeWhile Char.isDigit)
      | _ => some intPart
    else firstDecMatchAux rest

def firstDecMatch (s : String) : Option String :=
  (firstDecMatchAux s.data).map (fun cs => String.mk cs)

/-! ## The persisted Record (one row of the CSV table)

Column names follow the row dictionary built in `extract_atomic`.
AI-derived numeric fields are `Option Int` (a JSON `null` is `none`);
`avg_rating` keeps the numeric token matched on the page;
`review_seasonality` is the month-count mapping in insertion order
(the source serialises it with `json.dumps`);
`last_scraped` is `none` exactly when loading produced `NaT`. -/

structure Row where
  p4n_id : String
  title : String
  url : String
  num_places : Option Int
  parking_min : Option Int
  parking_max : Option Int
  electricity_eur : Option Int
  total_reviews : Nat
  avg_rating : String
  review_seasonality : List (String × Nat)
  ai_pros : String
  ai_cons : String
  last_scraped : Option Nat
deriving DecidableEq, Repr

/-! ## Store Merger (`_upsert_and_save`)

`tsGe a b` is the descending comparison on the `last_scraped` sort key:
`a` may come no later than `b`.  A missing timestamp sorts last
(`na_position` default of `sort_values`). -/

def tsGe : Option Nat → Option Nat → Bool
  | _, none => true
  | none, some _ => false
  | some x, some y => decide (y ≤ x)

/-- Insertion step of a descending sort; equal keys keep their input
order here, which the default `kind=quicksort` of the source does NOT
guarantee --- no theorem below depends on the order this picks among
equal keys. -/
def insertRow (x : Row) : List Row → List Row
  | [] => [x]
  | y :: l => if tsGe x.last_scraped y.last_scraped then x :: y :: l else y :: insertRow x l

/-- `sort_values(last_scraped, ascending=False)` over uniformly typed
rows; one order consistent with the unstable quicksort of the source. -/
def sort_desc (l : List Row) : List Row :=
  l.foldr insertRow []

/-- `drop_duplicates(p4n_id)` over uniformly typed rows: keep the first
occurrence of each id. -/
def drop_duplicates : List Row → List Row
  | [] => []
  | x :: xs => x :: drop_duplicates (xs.filter (fun y => y.p4n_id != x.p4n_id))
termination_by l => l.length
decreasing_by
  simp only [List.length_cons]
  exact Nat.lt_succ_of_le (List.length_filter_le _ _)

/-- The merge of `_upsert_and_save` under the idealization that both
tables carry `str` ids.  The program violates that idealization: the
existing table comes back from `pd.read_csv` with int64 ids whenever the
id column is all-numeric, and `drop_duplicates` then keeps both typings
of one item_id.  `upsert` therefore serves only as the opaque payload of
the save step below; the Store Merger claims are settled against the
faithfully typed `upsert_m` further down. -/
def upsert (existing new_rows : List Row) : List Row :=
  drop_duplicates (sort_desc (new_rows ++ existing))

/-- `_upsert_and_save` as an effect description: `ok none` means the early
return on an empty batch (no write), `ok (some t)` means a table was
written (its value is consulted by no claim below), `error` means the
exception raised while combining the tables escaped (the source wraps
none of the merge in a `try`).  `concatFails` is the outcome of the
external `pd.concat` call (the repository test
`test_upsert_fallback_on_concat_error` forces it to raise). -/
def upsert_and_save (existing batch : List Row) (concatFails : Bool) :
    Except String (Option (List Row)) :=
  if batch.isEmpty then Except.ok none
  else if concatFails then Except.error "forced concat error"
  else Except.ok (some (upsert existing batch))

/-! ## Run statistics and scraper state -/

structure Stats where
  read : Nat
  discarded_fresh : Nat
  discarded_low_feedback : Nat
  gemini_calls : Nat
deriving DecidableEq, Repr

def initStats : Stats :=
  { read := 0, discarded_fresh := 0, discarded_low_feedback := 0, gemini_calls := 0 }

structure ScraperState where
  stats : Stats
  processed_batch : List Row
deriving DecidableEq, Repr

def initState : ScraperState :=
  { stats := initStats, processed_batch := [] }

/-! ## Enrichment Client (`analyze_with_ai`)

The generative-AI service is an external capability; one call to it either
yields a parsed JSON object of the instructed schema or fails (provider
error, rate limit, or a `json.loads` failure on the response text --- all
land in the same `except` branch of the source). -/

structure ProsConsEntry where
  topic : String
  count : Nat
deriving DecidableEq, Repr

structure ProsCons where
  pros : List ProsConsEntry
  cons : List ProsConsEntry
deriving DecidableEq, Repr

/-- The parsed AI response; `ai_data.get(field)` on a missing field gives
`None`, so the empty response `{}` is the all-`none` value. -/
structure AIJson where
  num_places : Option Int
  parking_min : Option Int
  parking_max : Option Int
  electricity_eur : Option Int
  pros_cons : Option ProsCons
deriving DecidableEq, Repr

def emptyAIJson : AIJson :=
  { num_places := none, parking_min := none, parking_max := none,
    electricity_eur := none, pros_cons := none }

inductive AIOutcome where
  | success : AIJson → AIOutcome
  | failure : String → AIOutcome
deriving DecidableEq, Repr

/-- The raw payload handed to the AI (built in `extract_atomic`). -/
structure RawPayload where
  places_count : String
  parking_cost : String
  all_reviews : List String
deriving DecidableEq, Repr

/-- `analyze_with_ai`: bump the `gemini_calls` counter, issue the request
once; an exception of any kind is caught and the empty result returned. -/
def analyze_with_ai (stats : Stats) (_raw_data : RawPayload) (outcome : AIOutcome) :
    Stats × AIJson :=
  let stats2 := { stats with gemini_calls := stats.gemini_calls + 1 }
  match outcome with
  | AIOutcome.success j => (stats2, j)
  | AIOutcome.failure _ => (stats2, emptyAIJson)

/-- `analyze_with_ai` instrumented for the retry question: `oracle k` is the
outcome the provider would give to a `k`-th attempted request, and the third
component counts the requests actually issued.  The source body contains a
single `generate_content` call inside one `try`, so only `oracle 0` is ever
consulted and the count is always `1`. -/
def analyze_with_ai_attempts (stats : Stats) (_raw_data : RawPayload)
    (oracle : Nat → AIOutcome) : Stats × AIJson × Nat :=
  let stats2 := { stats with gemini_calls := stats.gemini_calls + 1 }
  match oracle 0 with
  | AIOutcome.success j => (stats2, j, 1)
  | AIOutcome.failure _ => (stats2, emptyAIJson, 1)

/-! ## Atomic Extractor (`extract_atomic`) -/

/-- One `.place-feedback-article` element: `datetime_attr` is the `datetime`
attribute of its `time` element (`none` when the attribute is absent, in
which case the source substitutes `"Unknown"`). -/
structure ReviewArticle where
  datetime_attr : Option String
  content : String
deriving DecidableEq, Repr

/-- The page reads of one item detail page, as delivered by the browser
capability.  `reviews` lists the article elements; a `none` entry is an
article whose reads raised (the per-article `except: continue`).
`places_count_dl` and `parking_cost_dl` are the `_get_dl` reads (`none`
when the locator raised, which `_get_dl` turns into `"N/A"`).
`rating_text` is the `.text-gray` rating text. -/
structure PageData where
  feedback_text : String
  data_place_id : Option String
  h1_text : String
  reviews : List (Option ReviewArticle)
  places_count_dl : Option String
  parking_cost_dl : Option String
  rating_text : String
deriving DecidableEq, Repr

/-- Navigation plus the readiness wait: either the item page loaded and all
reads up to the feedback counter succeed, or an exception lands in the outer
`except` of `extract_atomic`. -/
inductive PageOutcome where
  | failure : String → PageOutcome
  | success : PageData → PageOutcome
deriving DecidableEq, Repr

/-- `f"[{date_val}]: {text_val.strip()}"` for one successfully read article. -/
def review_line (a : ReviewArticle) : String :=
  "[" ++ a.datetime_attr.getD "Unknown" ++ "]: " ++ pyStrip a.content

/-- Insertion-ordered counter bump, matching a Python dict update. -/
def bumpAssoc (m : List (String × Nat)) (k : String) : List (String × Nat) :=
  match m with
  | [] => [(k, 1)]
  | (k2, v) :: rest => if k2 = k then (k2, v + 1) :: rest else (k2, v) :: bumpAssoc rest k

/-- The seasonality update of one article: when the date value contains a
dash, count it under its `YYYY-MM` key (the first seven characters). -/
def seasonality_fold (m : List (String × Nat)) (a : ReviewArticle) : List (String × Nat) :=
  let date_val := a.datetime_attr.getD "Unknown"
  if date_val.contains '-' then bumpAssoc m (date_val.take 7) else m

/-- `_get_dl` result: the stripped text, or `"N/A"` when the read raised. -/
def get_dl (v : Option String) : String :=
  (v.map pyStrip).getD "N/A"

def pcEntryStr (p : ProsConsEntry) : String :=
  p.topic ++ " (" ++ toString p.count ++ ")"

/-- `extract_atomic`: bump `read`; on a page failure the outer `except`
absorbs it.  Parse the feedback count (missing match counts as 0); below
`MIN_REVIEWS_THRESHOLD` the item is discarded before any AI call or row
append.  Otherwise gather fields, call the AI once, and append the row ---
unless the rating regex fails to match, which raises inside the row
construction (after the AI call) and is absorbed by the outer `except`. -/
def extract_atomic (st : ScraperState) (url : String) (page : PageOutcome)
    (ai : AIOutcome) (now : Nat) : ScraperState :=
  let st1 : ScraperState := { st with stats := { st.stats with read := st.stats.read + 1 } }
  match page with
  | PageOutcome.failure _ => st1
  | PageOutcome.success d =>
    let actual_feedback_count := (firstIntMatch d.feedback_text).getD 0
    if actual_feedback_count < MIN_REVIEWS_THRESHOLD then
      { st1 with stats :=
        { st1.stats with discarded_low_feedback := st1.stats.discarded_low_feedback + 1 } }
    else
      let p_id := d.data_place_id.getD ((url.splitOn "/").getLastD "")
      let title := pyStrip ((d.h1_text.splitOn "\n").headD "")
      let arts := (d.reviews.take 15).filterMap id
      let formatted_reviews := arts.map review_line
      let review_seasonality := arts.foldl seasonality_fold []
      let raw_payload : RawPayload :=
        { places_count := get_dl d.places_count_dl,
          parking_cost := get_dl d.parking_cost_dl,
          all_reviews := formatted_reviews }
      let res := analyze_with_ai st1.stats raw_payload ai
      let st2 : ScraperState := { st1 with stats := res.1 }
      let ai_data := res.2
      let pc := ai_data.pros_cons.getD { pros := [], cons := [] }
      match firstDecMatch d.rating_text with
      | none => st2
      | some rating =>
        let row : Row :=
          { p4n_id := p_id, title := title, url := url,
            num_places := ai_data.num_places,
            parking_min := ai_data.parking_min,
            parking_max := ai_data.parking_max,
            electricity_eur := ai_data.electricity_eur,
            total_reviews := actual_feedback_count,
            avg_rating := rating,
            review_seasonality := review_seasonality,
            ai_pros := String.intercalate "; " (pc.pros.map pcEntryStr),
            ai_cons := String.intercalate "; " (pc.cons.map pcEntryStr),
            last_scraped := some now }
        { st2 with processed_batch := st2.processed_batch ++ [row] }

/-! ## Queue Builder (the staleness filter loop inside `start`) -/

/-- `link.split("/")[-1]`. -/
def linkId (link : String) : String :=
  (link.splitOn "/").getLastD ""

/-- The freshness test of the loop: a first matching record exists, its
`last_scraped` is not `NaT`, and `now - last_scraped < timedelta(days=30)`.
(Natural subtraction agrees with the signed Python comparison: a future
timestamp also counts as fresh.) -/
def isFresh (existing : List Row) (now : Nat) (pid : String) : Bool :=
  match existing.find? (fun r => r.p4n_id == pid) with
  | none => false
  | some r =>
    match r.last_scraped with
    | none => false
    | some d => decide (now - d < staleness_cutoff)

/-- The `for link in discovered` loop: in dev mode stop once the queue holds
`DEV_LIMIT` entries; otherwise enqueue the link iff it is stale or `force`
is set, else count it as `discarded_fresh`. -/
def build_queue (is_dev force : Bool) (existing : List Row) (now : Nat) :
    List String → List String → Nat → List String × Nat
  | [], queue, discarded => (queue, discarded)
  | link :: rest, queue, discarded =>
    if is_dev && decide (DEV_LIMIT ≤ queue.length) then (queue, discarded)
    else
      let p_id := linkId link
      let is_stale := if !force && isFresh existing now p_id then false else true
      if is_stale || force then
        build_queue is_dev force existing now rest (queue ++ [link]) discarded
      else
        build_queue is_dev force existing now rest queue (discarded + 1)

/-! ## Daily partition rotation (`DailyQueueManager`) -/

/-- The two cross-run files read by `DailyQueueManager`: the seed list
(`url_list.txt`) and the state file.  `persistedIndex = none` covers all of
a missing state file, an unreadable one, and a missing key --- every case the
source defaults to index 0. -/
structure RunEnv where
  urlFileExists : Bool
  urlLines : List String
  persistedIndex : Option Nat

/-- `[line.strip() for line in f if line.strip()]`. -/
def urlsOf (env : RunEnv) : List String :=
  (env.urlLines.map pyStrip).filter (fun s => s != "")

/-- `get_next_partition`: `none` models the uncaught `IndexError` raised by
`urls[idx]` when the seed file exists but holds no URLs; otherwise the
selected single-seed partition with its 1-based day number and the universe
size (a missing seed file yields the empty partition `([], 0, 0)`). -/
def get_next_partition (env : RunEnv) : Option (List String × Nat × Nat) :=
  if env.urlFileExists then
    let urls := urlsOf env
    let k := env.persistedIndex.getD 0
    let idx := if urls.length ≤ k then 0 else k
    match urls[idx]? with
    | none => none
    | some u => some ([u], idx + 1, urls.length)
  else some ([], 0, 0)

/-- `increment_state`: the index written back to the state file, or `none`
when nothing is written (seed file missing; the empty-universe modulo error
also writes nothing because the exception precedes the write). -/
def increment_state (env : RunEnv) : Option Nat :=
  if env.urlFileExists then
    let urls := urlsOf env
    if 0 < urls.length then
      some ((env.persistedIndex.getD 0 + 1) % urls.length)
    else none
  else none

/-! ## The run driver (`start`) -/

structure ScraperConfig where
  is_dev : Bool
  force : Bool

/-- All external inputs of one run: the login outcome, the cross-run files,
the table loaded by `_load_existing`, the anchor hrefs each seed page
yields, the per-item page and AI outcomes, the clock, and whether the
`pd.concat` of the save step raises. -/
structure StartInput where
  loginOk : Bool
  env : RunEnv
  existing : List Row
  linksForSeed : String → List String
  pageFor : String → PageOutcome
  aiFor : String → AIOutcome
  now : Nat
  concatFails : Bool

/-- The observable effects of one run: which seed URLs were scanned for
discovery, the final in-memory state, the table written by
`_upsert_and_save` (`none` = no write), the index written to the state file
(`none` = no write), and whether an uncaught exception escaped `start`. -/
structure RunResult where
  scannedSeeds : List String
  finalState : ScraperState
  savedTable : Option (List Row)
  stateWrite : Option Nat
  crashed : Bool

/-- `f"https://park4night.com{href}" if href.startswith("/") else href`. -/
def resolveHref (href : String) : String :=
  if href.startsWith "/" then "https://park4night.com" ++ href else href

/-- `start`: a failed login aborts the run up front unless in dev mode;
then one partition is selected, its seed pages scanned for place links, the
deduplicated discoveries filtered into the queue, each queued item extracted,
the batch merged and saved, and --- only in a non-dev run, and only after the
save step returned --- the partition cursor advanced. -/
def start (cfg : ScraperConfig) (inp : StartInput) : RunResult :=
  if !inp.loginOk && !cfg.is_dev then
    { scannedSeeds := [], finalState := initState, savedTable := none,
      stateWrite := none, crashed := false }
  else
    match get_next_partition inp.env with
    | none =>
      { scannedSeeds := [], finalState := initState, savedTable := none,
        stateWrite := none, crashed := true }
    | some (target_urls, _day, _total) =>
      let discovery_links := target_urls.flatMap (fun u => (inp.linksForSeed u).map resolveHref)
      let discovered := discovery_links.eraseDups
      let qd := build_queue cfg.is_dev cfg.force inp.existing inp.now discovered [] 0
      let st0 : ScraperState :=
        { stats := { initStats with discarded_fresh := qd.2 }, processed_batch := [] }
      let stFinal := qd.1.foldl
        (fun st link => extract_atomic st link (inp.pageFor link) (inp.aiFor link) inp.now) st0
      match upsert_and_save inp.existing stFinal.processed_batch inp.concatFails with
      | Except.error _ =>
        { scannedSeeds := target_urls, finalState := stFinal, savedTable := none,
          stateWrite := none, crashed := true }
      | Except.ok saved =>
        { scannedSeeds := target_urls, finalState := stFinal, savedTable := saved,
          stateWrite := if cfg.is_dev then none else increment_state inp.env,
          crashed := false }

/-! ## Concrete sample data used by the witness theorems -/

/-- A row with only the merge-relevant fields varying. -/
def sampleRow (i : String) (t : Option Nat) : Row :=
  { p4n_id := i, title := "place-" ++ i, url := "https://park4night.com/place/" ++ i,
    num_places := none, parking_min := none, parking_max := none, electricity_eur := none,
    total_reviews := 6, avg_rating := "4.5", review_seasonality := [],
    ai_pros := "", ai_cons := "", last_scraped := t }

/-! ## Claims about the Store Merger

The two columns the merge consults keep their runtime types through the
pipeline: a freshly scraped batch row carries a Python `str` `p4n_id`
(line 203) and a `str` `last_scraped` (line 242), while `_load_existing`
re-reads the persisted CSV with `pd.read_csv` --- which types an
all-integer-literal id column as int64 --- and re-parses `last_scraped`
with `pd.to_datetime` into datetime64.  The concatenated frame of line
310 therefore mixes `int` with `str` ids and `Timestamp` with `str`
timestamps.  `MRow` is a row of that frame as `sort_values` and
`drop_duplicates` see it:

* `drop_duplicates(p4n_id)` uses value equality, under which int64 `300`
  and str `"300"` are distinct, so the two typings of one item never
  collapse (the freshness check bridges them with `astype(str)` at line
  292; the merge at line 311 does not);
* comparing a `Timestamp` against a batch timestamp string parses the
  string, and two batch strings of the fixed `%Y-%m-%d %H:%M:%S` format
  compare lexicographically, which coincides with chronological order,
  so the underlying instant is the effective sort key in every case,
  with `NaT` placed last.

The theorems below evaluate the merge only at inputs on which every
possible order among equal sort keys gives the stated result, so nothing
rests on the tie behaviour of the default (unstable) quicksort. -/

/-- One cell of the object-typed `p4n_id` column of the concatenated
frame: an int64 id from the re-read table, or a Python `str` id from the
scraped batch. -/
inductive IdCell where
  | intId : Int → IdCell
  | strId : String → IdCell
deriving DecidableEq, Repr

/-- One cell of the `last_scraped` column of the concatenated frame: a
datetime64 instant (`dt`) or a missing one (`naT`) from the re-read
table, or the batch serialization of instant `t` (`strTs t`). -/
inductive TsCell where
  | dt : Nat → TsCell
  | naT : TsCell
  | strTs : Nat → TsCell
deriving DecidableEq, Repr

/-- The instant a cell denotes under the comparison semantics above. -/
def tsCellKey : TsCell → Option Nat
  | TsCell.dt t => some t
  | TsCell.strTs t => some t
  | TsCell.naT => none

def tsCellGe (a b : TsCell) : Bool :=
  tsGe (tsCellKey a) (tsCellKey b)

/-- A row of the concatenated frame restricted to the two columns the
merge consults; the remaining columns ride along unchanged and are read
by neither `sort_values` nor `drop_duplicates`. -/
structure MRow where
  p4n_id : IdCell
  last_scraped : TsCell
deriving DecidableEq, Repr

/-- The merge view of a freshly scraped batch row: `str` id and `str`
timestamp. -/
def Row.toMRow (r : Row) : MRow :=
  { p4n_id := IdCell.strId r.p4n_id,
    last_scraped := match r.last_scraped with
      | some t => TsCell.strTs t
      | none => TsCell.naT }

def insertMRow (x : MRow) : List MRow → List MRow
  | [] => [x]
  | y :: l =>
    if tsCellGe x.last_scraped y.last_scraped then x :: y :: l else y :: insertMRow x l

/-- `sort_values(last_scraped, ascending=False)` on the typed frame; one
order consistent with the unstable quicksort of the source. -/
def sort_desc_m (l : List MRow) : List MRow :=
  l.foldr insertMRow []

/-- `drop_duplicates(p4n_id)` on the typed frame: keep each row whose id
cell VALUE was not seen before (pandas hashes the cell values), so an
int64 id never collapses with its str spelling. -/
def drop_duplicates_m_aux (seen : List IdCell) : List MRow → List MRow
  | [] => []
  | x :: xs =>
    if seen.contains x.p4n_id then drop_duplicates_m_aux seen xs
    else x :: drop_duplicates_m_aux (x.p4n_id :: seen) xs

def drop_duplicates_m (l : List MRow) : List MRow :=
  drop_duplicates_m_aux [] l

/-- The merge of `_upsert_and_save` on the frame as actually typed:
concatenate `new_rows` ahead of `existing`, sort descending by
`last_scraped`, deduplicate by `p4n_id` keeping the first occurrence. -/
def upsert_m (existing new_rows : List MRow) : List MRow :=
  drop_duplicates_m (sort_desc_m (new_rows ++ existing))

/-- What an id cell is written out as by `to_csv`. -/
def idSerialize : IdCell → String
  | IdCell.intId n => toString n
  | IdCell.strId s => s

/-- A nonnegative integer literal --- the shape of the scraped ids. -/
def isIntLiteral (s : String) : Bool :=
  !s.data.isEmpty && s.data.all Char.isDigit

/-- `to_csv` followed by `_load_existing`: `pd.read_csv` types the id
column int64 iff every written id is an integer literal (dtype inference
is column-wide), and `pd.to_datetime(..., errors=coerce)` re-types every
parseable `last_scraped` cell to datetime64. -/
def csv_roundtrip (t : List MRow) : List MRow :=
  let t2 := t.map (fun r =>
    { r with last_scraped := match r.last_scraped with
        | TsCell.dt u => TsCell.dt u
        | TsCell.strTs u => TsCell.dt u
        | TsCell.naT => TsCell.naT })
  if (t2.map (fun r => idSerialize r.p4n_id)).all isIntLiteral then
    t2.map (fun r =>
      { r with p4n_id := IdCell.intId (Int.ofNat (natOfDigits (idSerialize r.p4n_id).data)) })
  else
    t2.map (fun r => { r with p4n_id := IdCell.strId (idSerialize r.p4n_id) })

/-- The existing-table row of the failing inputs: item 300 as loaded back
from the CSV (int64 id, datetime64 timestamp). -/
def existing300 : MRow :=
  { p4n_id := IdCell.intId 300, last_scraped := TsCell.dt 100 }

/-- The batch row of the failing inputs: the same item 300 as freshly
scraped (str id, str timestamp, later instant). -/
def batch300 : MRow :=
  { p4n_id := IdCell.strId "300", last_scraped := TsCell.strTs 200 }

/-- C1 (code bug): item_id 300 occurs in both tables --- as int64 `300` in
the loaded existing table and as str `"300"` in `new_rows`, both
serializing to the same item_id --- yet the merged table keeps BOTH rows,
because `drop_duplicates` never identifies the two typings.  This refutes
"exactly one row per shared item_id"; the spec (the data-model invariant
and the §8 dedup property) is clearly the intent and the missing id
normalization the slip.  The sort keys 200 and 100 are distinct, so this
evaluation does not depend on the unstable tie order of the default
quicksort (which is also why the new-wins-on-tie clause of the claim is
not a guarantee the program gives). -/
theorem upsert_typed_keeps_both_rows :
    upsert_m [existing300] [batch300] = [batch300, existing300] ∧
    (upsert_m [existing300] [batch300]).length = 2 ∧
    idSerialize existing300.p4n_id = "300" ∧
    idSerialize batch300.p4n_id = "300" :=
  ⟨rfl, rfl, rfl, rfl⟩

/-- C9 (code bug): merging the batch row for item 300 into an empty table
yields one row; persisting and re-loading re-types the all-numeric id
column to int64; merging the SAME `new_rows` again --- unchanged
`last_scraped` --- then keeps both the int64 and the str spelling of the
id: two rows where the claim requires the same one-row table, so the
upsert is not idempotent across the persisted table.  Both rows survive
deduplication in either order of the two equal sort keys, so the count
does not depend on the unstable tie behaviour of quicksort. -/
theorem upsert_typed_not_idempotent :
    upsert_m [] [batch300] = [batch300] ∧
    csv_roundtrip (upsert_m [] [batch300]) =
      [{ p4n_id := IdCell.intId 300, last_scraped := TsCell.dt 200 }] ∧
    (upsert_m (csv_roundtrip (upsert_m [] [batch300])) [batch300]).length = 2 :=
  ⟨rfl, rfl, rfl⟩

/-- C2 (code bug): at the failing input of the repository test
`test_upsert_fallback_on_concat_error` --- empty existing table, one freshly
scraped row, `pd.concat` raising --- `_upsert_and_save` propagates the
exception and writes nothing: the source contains no `try`, hence no
fallback append, contrary to the claim and to the test. -/
theorem upsert_save_concat_error_propagates :
    upsert_and_save [] [sampleRow "300" (some 1769043600)] true =
      Except.error "forced concat error" := rfl

/-! ## Claims about the Enrichment Client -/

def sampleAIJson : AIJson :=
  { num_places := some 4, parking_min := some 0, parking_max := some 12,
    electricity_eur := some 0, pros_cons := none }

def samplePayload : RawPayload :=
  { places_count := "4", parking_cost := "12 EUR", all_reviews := [] }

/-- A provider that rate-limits the first request and would satisfy any
retried one. -/
def rateLimitOracle : Nat → AIOutcome := fun n =>
  if n = 0 then AIOutcome.failure "429 RESOURCE_EXHAUSTED rate limit"
  else AIOutcome.success sampleAIJson

/-- C4 counterexample: when the first request fails with a rate-limit-class
error while a retry would succeed, the client still issues exactly one
request and returns the empty result --- there is no retry loop and no
backoff in `analyze_with_ai`, refuting the claimed retry policy. -/
theorem ai_no_retry_counterexample :
    analyze_with_ai_attempts initStats samplePayload rateLimitOracle =
      ({ initStats with gemini_calls := 1 }, emptyAIJson, 1) ∧
    rateLimitOracle 1 = AIOutcome.success sampleAIJson :=
  ⟨rfl, rfl⟩

/-- C4 (amended): the Enrichment Client issues exactly one request per
call; an error of any class --- rate-limit included --- yields the empty
result immediately instead of raising, with no retry. -/
theorem ai_single_attempt_empty_on_error (stats : Stats) (raw : RawPayload)
    (oracle : Nat → AIOutcome) :
    analyze_with_ai_attempts stats raw oracle =
      ({ stats with gemini_calls := stats.gemini_calls + 1 },
       (match oracle 0 with
        | AIOutcome.success j => j
        | AIOutcome.failure _ => emptyAIJson), 1) := by
  unfold analyze_with_ai_attempts
  cases oracle 0 <;> rfl

/-! ## Claims about the Queue Builder -/

/-- With `is_dev = false` the discovery loop is a pure filter: a link is
enqueued iff `force` is set or its record is not fresh; every other link
bumps `discarded_fresh`. -/
theorem build_queue_false_spec (force : Bool) (existing : List Row) (now : Nat) :
    ∀ (links queue : List String) (discarded : Nat),
      build_queue false force existing now links queue discarded =
        (queue ++ links.filter (fun l => force || !(isFresh existing now (linkId l))),
         discarded +
           (links.filter (fun l => !force && isFresh existing now (linkId l))).length) := by
  intro links
  induction links with
  | nil =>
    intro queue discarded
    simp [build_queue]
  | cons link rest ih =>
    intro queue discarded
    simp only [build_queue, Bool.false_and]
    rw [if_neg (by exact Bool.false_ne_true)]
    have hPQ : (force || !(isFresh existing now (linkId link)))
        = !(!force && isFresh existing now (linkId link)) := by
      cases force <;> cases isFresh existing now (linkId link) <;> rfl
    by_cases hq : (!force && isFresh existing now (linkId link)) = true
    · have hforce : force = false := by
        cases force with
        | false => rfl
        | true => simp at hq
      have hP : (force || !(isFresh existing now (linkId link))) = false := by
        rw [hPQ, hq]
        rfl
      have hcond : ((if !force && isFresh existing now (linkId link) then false else true)
          || force) = false := by
        rw [if_pos hq, hforce]
        rfl
      rw [hcond, if_neg (by exact Bool.false_ne_true), ih, List.filter_cons,
        if_neg (by simp [hP]), List.filter_cons, if_pos hq]
      refine congrArg _ ?_
      simp only [List.length_cons]
      omega
    · have hP : (force || !(isFresh existing now (linkId link))) = true := by
        rw [hPQ]
        simp only [Bool.not_eq_true] at hq
        rw [hq]
        rfl
      have hcond : ((if !force && isFresh existing now (linkId link) then false else true)
          || force) = true := by
        rw [if_neg hq]
        rfl
      rw [hcond, if_pos rfl, ih, List.filter_cons, if_pos hP, List.filter_cons,
        if_neg (by simp [hq])]
      simp [List.append_assoc]

/-- C5 (amended, non-dev runs): the work queue is exactly the discovered
links that are forced or not fresh, in discovery order, and every fresh
unforced link is counted in `discarded_fresh`; with `force = true` every
discovered link is enqueued.  (Dev runs stop examining links once
`DEV_LIMIT` entries are queued, see the counterexample.) -/
theorem staleness_filter_production (force : Bool) (existing : List Row) (now : Nat)
    (discovered : List String) :
    build_queue false force existing now discovered [] 0 =
      (discovered.filter (fun l => force || !(isFresh existing now (linkId l))),
       (discovered.filter (fun l => !force && isFresh existing now (linkId l))).length) ∧
    (force = true → (build_queue false force existing now discovered [] 0).1 = discovered) := by
  refine ⟨by simpa using build_queue_false_spec force existing now discovered [] 0, ?_⟩
  intro hf
  subst hf
  rw [build_queue_false_spec true existing now discovered [] 0]
  simp

theorem staleness_filter_production_witness :
    (build_queue false true [sampleRow "101" (some 50)] 60
        ["https://park4night.com/place/101"] [] 0 =
      (["https://park4night.com/place/101"].filter
          (fun l => true || !(isFresh [sampleRow "101" (some 50)] 60 (linkId l))),
       (["https://park4night.com/place/101"].filter
          (fun l => !true && isFresh [sampleRow "101" (some 50)] 60 (linkId l))).length) ∧
      (true = true → (build_queue false true [sampleRow "101" (some 50)] 60
          ["https://park4night.com/place/101"] [] 0).1 =
        ["https://park4night.com/place/101"])) ∧
    true = true :=
  ⟨staleness_filter_production true [sampleRow "101" (some 50)] 60
      ["https://park4night.com/place/101"], rfl⟩

/-- C5 counterexample: a dev run with `force = true` and two discovered
links (neither with any prior record) enqueues only the first --- the
`DEV_LIMIT` break precedes the freshness filter --- so, as stated (for every
run, with `force = true` every discovered item is enqueued), the claim is
false. -/
theorem staleness_filter_dev_counterexample :
    build_queue true true [] 0
        ["https://park4night.com/place/101", "https://park4night.com/place/102"] [] 0 =
      (["https://park4night.com/place/101"], 0) ∧
    "https://park4night.com/place/102" ∉
      (build_queue true true [] 0
        ["https://park4night.com/place/101", "https://park4night.com/place/102"] [] 0).1 := by
  constructor
  · rfl
  · intro hmem
    rw [show (build_queue true true [] 0
        ["https://park4night.com/place/101", "https://park4night.com/place/102"] [] 0).1 =
      ["https://park4night.com/place/101"] from rfl] at hmem
    simp at hmem

/-! ## Claims about the Atomic Extractor -/

/-- C6: a queued item whose parsed feedback count is below
`MIN_REVIEWS_THRESHOLD` is returned before the AI call and before any row
is appended: only `read` and `discarded_low_feedback` change, for any AI
outcome --- the Enrichment Client is never consulted and no Record is
produced, and this is an ordinary return, not an error path. -/
theorem low_feedback_discard (st : ScraperState) (url : String) (d : PageData)
    (ai : AIOutcome) (now : Nat)
    (hlow : (firstIntMatch d.feedback_text).getD 0 < MIN_REVIEWS_THRESHOLD) :
    extract_atomic st url (PageOutcome.success d) ai now =
      { st with stats := { st.stats with
          read := st.stats.read + 1,
          discarded_low_feedback := st.stats.discarded_low_feedback + 1 } } := by
  unfold extract_atomic
  simp [hlow]

def lowPage : PageData :=
  { feedback_text := "3 reviews", data_place_id := some "p101", h1_text := "Quiet spot",
    reviews := [], places_count_dl := some "10", parking_cost_dl := some "free",
    rating_text := "4.2" }

theorem low_feedback_discard_witness :
    (firstIntMatch lowPage.feedback_text).getD 0 < MIN_REVIEWS_THRESHOLD ∧
    extract_atomic initState "https://park4night.com/place/101"
        (PageOutcome.success lowPage) (AIOutcome.success sampleAIJson) 42 =
      { initState with stats := { initState.stats with
          read := initState.stats.read + 1,
          discarded_low_feedback := initState.stats.discarded_low_feedback + 1 } } :=
  ⟨by decide, low_feedback_discard initState "https://park4night.com/place/101" lowPage
    (AIOutcome.success sampleAIJson) 42 (by decide)⟩

/-- C7: when the AI call fails, the extractor still appends a Record: every
AI-derived field is `none` (preserved as null, not coerced to zero) or the
empty default, while every directly scraped field --- id, title, url, review
count, rating, seasonality, timestamp --- is populated from the page. -/
theorem enrichment_failure_degradation (st : ScraperState) (url : String) (d : PageData)
    (err : String) (now : Nat) (rating : String)
    (hhigh : ¬ (firstIntMatch d.feedback_text).getD 0 < MIN_REVIEWS_THRESHOLD)
    (hrate : firstDecMatch d.rating_text = some rating) :
    extract_atomic st url (PageOutcome.success d) (AIOutcome.failure err) now =
      { stats := { st.stats with
          read := st.stats.read + 1,
          gemini_calls := st.stats.gemini_calls + 1 },
        processed_batch := st.processed_batch ++
          [{ p4n_id := d.data_place_id.getD ((url.splitOn "/").getLastD ""),
             title := pyStrip ((d.h1_text.splitOn "\n").headD ""),
             url := url,
             num_places := none, parking_min := none, parking_max := none,
             electricity_eur := none,
             total_reviews := (firstIntMatch d.feedback_text).getD 0,
             avg_rating := rating,
             review_seasonality := ((d.reviews.take 15).filterMap id).foldl seasonality_fold [],
             ai_pros := "", ai_cons := "",
             last_scraped := some now }] } := by
  unfold extract_atomic analyze_with_ai
  simp [hhigh, hrate, emptyAIJson]
  decide

def highPage : PageData :=
  { feedback_text := "12 reviews", data_place_id := none, h1_text := "Lakeside\nsub",
    reviews := [some { datetime_attr := some "2025-07-14", content := " great " }, none],
    places_count_dl := some " 8 ", parking_cost_dl := none,
    rating_text := "4.6 stars" }

theorem enrichment_failure_degradation_witness :
    ¬ (firstIntMatch highPage.feedback_text).getD 0 < MIN_REVIEWS_THRESHOLD ∧
    extract_atomic initState "https://park4night.com/place/77"
        (PageOutcome.success highPage) (AIOutcome.failure "503 provider down") 99 =
      { stats := { initState.stats with
          read := initState.stats.read + 1,
          gemini_calls := initState.stats.gemini_calls + 1 },
        processed_batch := initState.processed_batch ++
          [{ p4n_id := highPage.data_place_id.getD
               (("https://park4night.com/place/77".splitOn "/").getLastD ""),
             title := pyStrip ((highPage.h1_text.splitOn "\n").headD ""),
             url := "https://park4night.com/place/77",
             num_places := none, parking_min := none, parking_max := none,
             electricity_eur := none,
             total_reviews := (firstIntMatch highPage.feedback_text).getD 0,
             avg_rating := "4.6",
             review_seasonality :=
               ((highPage.reviews.take 15).filterMap id).foldl seasonality_fold [],
             ai_pros := "", ai_cons := "",
             last_scraped := some 99 }] } :=
  ⟨by decide, enrichment_failure_degradation initState "https://park4night.com/place/77"
    highPage "503 provider down" 99 "4.6" (by decide) (by decide)⟩

/-! ## Claims about the run driver and partition rotation -/

theorem upsert_and_save_ok (e b : List Row) :
    upsert_and_save e b false =
      Except.ok (if b.isEmpty then none else some (upsert e b)) := by
  unfold upsert_and_save
  by_cases hb : b.isEmpty = true <;> simp [hb]

theorem get_next_partition_at (env : RunEnv) (k : Nat) (u : String)
    (hfile : env.urlFileExists = true) (hidx : env.persistedIndex = some k)
    (hk : k < (urlsOf env).length) (hu : (urlsOf env)[k]? = some u) :
    get_next_partition env = some ([u], k + 1, (urlsOf env).length) := by
  unfold get_next_partition
  rw [if_pos hfile, hidx]
  simp only [Option.getD_some]
  rw [if_neg (Nat.not_le.mpr hk), hu]

/-- C3: in a non-dev run with persisted cursor `k` over a universe of `N`
seeds (`k < N`), and the merge step not raising: a run whose login succeeds
scans exactly the seed at index `k`, completes, and persists cursor
`(k + 1) % N`; a run whose login fails scans nothing, writes no table, and
leaves the cursor file untouched --- the cursor is advanced only as the final
step after the per-item work and the save. -/
theorem partition_rotation (cfg : ScraperConfig) (inp : StartInput) (k : Nat) (u : String)
    (hdev : cfg.is_dev = false)
    (hfile : inp.env.urlFileExists = true)
    (hidx : inp.env.persistedIndex = some k)
    (hk : k < (urlsOf inp.env).length)
    (hu : (urlsOf inp.env)[k]? = some u)
    (hconcat : inp.concatFails = false) :
    (inp.loginOk = true →
      (start cfg inp).scannedSeeds = [u] ∧
      (start cfg inp).stateWrite = some ((k + 1) % (urlsOf inp.env).length) ∧
      (start cfg inp).crashed = false) ∧
    (inp.loginOk = false →
      (start cfg inp).scannedSeeds = [] ∧
      (start cfg inp).savedTable = none ∧
      (start cfg inp).stateWrite = none) := by
  have hpart := get_next_partition_at inp.env k u hfile hidx hk hu
  have hinc : increment_state inp.env = some ((k + 1) % (urlsOf inp.env).length) := by
    unfold increment_state
    rw [if_pos hfile, if_pos (Nat.lt_of_le_of_lt (Nat.zero_le k) hk), hidx]
    rfl
  constructor
  · intro hlog
    unfold start
    rw [hlog, hdev, hconcat, hpart]
    simp [upsert_and_save_ok, hinc]
  · intro hlog
    unfold start
    rw [hlog, hdev]
    simp

def envW : RunEnv :=
  { urlFileExists := true, urlLines := ["https://a", "https://b"], persistedIndex := some 1 }

def cfgProd : ScraperConfig := { is_dev := false, force := false }

def cfgDev : ScraperConfig := { is_dev := true, force := false }

def inpW : StartInput :=
  { loginOk := true, env := envW, existing := [], linksForSeed := fun _ => [],
    pageFor := fun _ => PageOutcome.failure "nav timeout",
    aiFor := fun _ => AIOutcome.failure "unused", now := 0, concatFails := false }

theorem partition_rotation_witness :
    (start cfgProd inpW).scannedSeeds = ["https://b"] ∧
    (start cfgProd inpW).stateWrite = some ((1 + 1) % (urlsOf inpW.env).length) ∧
    (start cfgProd inpW).crashed = false :=
  (partition_rotation cfgProd inpW 1 "https://b" rfl rfl rfl (by decide) (by decide) rfl).1 rfl

/-- C8: with authentication required (non-dev) a failed login aborts the
whole run before discovery: nothing is scanned, no table is written, the
cursor is untouched, and no exception escapes; in dev mode a failed login
changes nothing --- the run proceeds exactly as with a successful login. -/
theorem auth_abort (cfg : ScraperConfig) (inp : StartInput)
    (hlogin : inp.loginOk = false) :
    (cfg.is_dev = false →
      (start cfg inp).scannedSeeds = [] ∧
      (start cfg inp).savedTable = none ∧
      (start cfg inp).stateWrite = none ∧
      (start cfg inp).crashed = false) ∧
    (cfg.is_dev = true → start cfg inp = start cfg { inp with loginOk := true }) := by
  constructor
  · intro hdev
    unfold start
    rw [hlogin, hdev]
    simp
  · intro hdev
    unfold start
    rw [hlogin, hdev]
    rfl

theorem auth_abort_witness :
    (start cfgProd { inpW with loginOk := false }).scannedSeeds = [] ∧
    (start cfgProd { inpW with loginOk := false }).savedTable = none ∧
    (start cfgProd { inpW with loginOk := false }).stateWrite = none ∧
    (start cfgProd { inpW with loginOk := false }).crashed = false :=
  (auth_abort cfgProd { inpW with loginOk := false } rfl).1 rfl

/-- C10: a run constructed with `is_dev = true` never writes the partition
cursor, whatever happens --- only non-dev runs reach `increment_state`. -/
theorem dev_run_never_advances_cursor (cfg : ScraperConfig) (inp : StartInput)
    (hdev : cfg.is_dev = true) :
    (start cfg inp).stateWrite = none := by
  unfold start
  rw [hdev]
  simp only [Bool.not_true, Bool.and_false]
  rw [if_neg Bool.false_ne_true]
  split
  · rfl
  · split
    · rfl
    · rfl

theorem dev_run_never_advances_cursor_witness :
    (start cfgDev inpW).stateWrite = none :=
  dev_run_never_advances_cursor cfgDev inpW rfl

end Crawler
